import Mathlib

set_option maxRecDepth 8192

/-!
Shallow embedding of the nctalk client library (src/nctalk): the decoded-XML
value domain, the query gateway (`NextCloudTalkAPI.query`) with its error
taxonomy, the capability cache (`NextCloudTalk.__populate_caches` and the
`capabilities`/`config`/`server_version` accessors), the resource model
(`Conversation`, `Chat`, `Participant`, `Message`) and the rich-object
registry, together with theorems settling the frozen claims about them.

Remote exchange is modelled by an environment `Env : Request → HResp` (the
session collaborator): a method issues a request and the environment answers
with an HTTP-like response (ok flag, decoded body, response headers).  Each
resource-model method returns its result together with the list of requests
it issued, so that "issues zero remote calls" is a statement about that list.
-/

/-- Values produced by decoding the service's XML responses with xmltodict
(after the `json.loads(json.dumps(...))` round-trip of the source), and values
placed into request bodies: None, strings, integers, booleans, lists and
insertion-ordered dicts. -/
inductive XVal where
  | null : XVal
  | str : String → XVal
  | int : Int → XVal
  | bool : Bool → XVal
  | arr : List XVal → XVal
  | map : List (String × XVal) → XVal

/-- The Python exceptions the library's code paths can raise: the exception
classes of `exceptions.py` (each carrying its message) plus the builtin
KeyError, TypeError and AttributeError that escape unclassified. -/
inductive PyError where
  | badRequest : String → PyError
  | unauthorized : String → PyError
  | forbidden : String → PyError
  | notFound : String → PyError
  | conflict : String → PyError
  | preconditionFailed : String → PyError
  | notCapable : String → PyError
  | generic : String → PyError
  | keyError : String → PyError
  | typeError : String → PyError
  | attributeError : String → PyError
deriving DecidableEq

/-- Ordered-dict lookup (Python `d[k]` on the key side, `d.get(k)` when fed
to `Option` combinators). -/
def lookupKV {β : Type} : List (String × β) → String → Option β
  | [], _ => none
  | (k', v) :: rest, k => if k = k' then some v else lookupKV rest k

/-- Python `d[k] = v`: overwrite in place when the key exists (keeping its
position, as dicts do), append otherwise. -/
def setItemList {β : Type} : List (String × β) → String → β → List (String × β)
  | [], k, v => [(k, v)]
  | (k', v') :: rest, k, v =>
    if k' = k then (k, v) :: rest else (k', v') :: setItemList rest k v

/-- Python `d.update(u)`: write every pair of `u` into `d`, overwriting
existing keys. -/
def dictUpdate {β : Type} (d : List (String × β)) (u : List (String × β)) :
    List (String × β) :=
  u.foldl (fun acc kv => setItemList acc kv.1 kv.2) d

/-- Python truthiness of a decoded value (`if not request`, `or` defaults,
the falsy-cache guards). -/
def truthy : XVal → Bool
  | .null => false
  | .str s => !s.isEmpty
  | .int n => n != 0
  | .bool b => b
  | .arr xs => !xs.isEmpty
  | .map m => !m.isEmpty

/-- Python `a or b` on decoded values. -/
def pyOr (v d : XVal) : XVal := if truthy v then v else d

/-- Python subscripting `v[k]` with a string key: a dict either yields the
value or raises KeyError; every other decoded value raises TypeError. -/
def getItem : XVal → String → Except PyError XVal
  | .map m, k =>
    match lookupKV m k with
    | some v => .ok v
    | none => .error (.keyError k)
  | .null, _ => .error (.typeError "NoneType object is not subscriptable")
  | .str _, _ => .error (.typeError "string indices must be integers")
  | .int _, _ => .error (.typeError "int object is not subscriptable")
  | .bool _, _ => .error (.typeError "bool object is not subscriptable")
  | .arr _, _ => .error (.typeError "list indices must be integers")

/-- A chain of subscripts `v[k1][k2]...`, stopping at the first failure. -/
def getPath : XVal → List String → Except PyError XVal
  | v, [] => .ok v
  | v, k :: ks =>
    match getItem v k with
    | .error e => .error e
    | .ok v' => getPath v' ks

/-- Python `d.get(k, default)`: only dicts have `.get`; anything else raises
AttributeError. -/
def pyGetD : XVal → String → XVal → Except PyError XVal
  | .map m, k, d => .ok ((lookupKV m k).getD d)
  | _, _, _ => .error (.attributeError "get")

mutual
/-- Python `repr` of a decoded value (used when a value is rendered inside a
container). -/
def pyRepr : XVal → String
  | .null => "None"
  | .str s => "'" ++ s ++ "'"
  | .int n => toString n
  | .bool b => if b then "True" else "False"
  | .arr xs => "[" ++ pyReprList xs ++ "]"
  | .map m => "\x7b" ++ pyReprPairs m ++ "\x7d"

/-- Comma-separated reprs of the elements of a list. -/
def pyReprList : List XVal → String
  | [] => ""
  | [x] => pyRepr x
  | x :: xs => pyRepr x ++ ", " ++ pyReprList xs

/-- Comma-separated `key: value` reprs of the pairs of a dict. -/
def pyReprPairs : List (String × XVal) → String
  | [] => ""
  | [(k, v)] => "'" ++ k ++ "': " ++ pyRepr v
  | (k, v) :: rest => "'" ++ k ++ "': " ++ pyRepr v ++ ", " ++ pyReprPairs rest
end

/-- Python `str` of a decoded value, as an f-string renders it: a string
appears bare, every other value as its repr. -/
def pyStr : XVal → String
  | .str s => s
  | v => pyRepr v

/-- Python `type(v)` as it prints inside an f-string. -/
def pyTypeName : XVal → String
  | .null => "<class 'NoneType'>"
  | .str _ => "<class 'str'>"
  | .int _ => "<class 'int'>"
  | .bool _ => "<class 'bool'>"
  | .arr _ => "<class 'list'>"
  | .map _ => "<class 'dict'>"

/-- A remote call as the Query Gateway builds it: HTTP method, endpoint
sub-path, body/query parameters and the response headers to capture. -/
structure Request where
  method : String
  sub : String
  data : List (String × XVal)
  includeHeaders : List String

/-- The session collaborator's answer to a request: success flag
(`request.ok`), decoded body (`xmltodict.parse(request.content)`) and the
response headers present. -/
structure HResp where
  ok : Bool
  body : XVal
  headers : List (String × String)

/-- The session collaborator: answers each issued request with a response. -/
def Env : Type := Request → HResp

/-- The header value captured for the side channel:
`request.headers.get(header, None)`. -/
def headerVal (hs : List (String × String)) (h : String) : XVal :=
  match lookupKV hs h with
  | some v => .str v
  | none => .null

/-- One step of `ret.setdefault('response_headers', {}).setdefault(header, ...)`
from `NextCloudTalkAPI.query`: only a dict has `setdefault`, the inner dict is
created on first use, and an already-present header value is kept. -/
def attachOne (ret : XVal) (respHeaders : List (String × String)) (h : String) :
    Except PyError XVal :=
  match ret with
  | .map m =>
    match lookupKV m "response_headers" with
    | none =>
      .ok (.map (m ++ [("response_headers", .map [(h, headerVal respHeaders h)])]))
    | some (.map rh) =>
      match lookupKV rh h with
      | some _ => .ok (.map m)
      | none =>
        .ok (.map (setItemList m "response_headers"
          (.map (rh ++ [(h, headerVal respHeaders h)]))))
    | some _ => .error (.attributeError "setdefault")
  | _ => .error (.attributeError "setdefault")

/-- The `for header in include_headers` loop of `NextCloudTalkAPI.query`. -/
def attachHeaders (respHeaders : List (String × String)) :
    XVal → List String → Except PyError XVal
  | ret, [] => .ok ret
  | ret, h :: rest =>
    match attachOne ret respHeaders h with
    | .error e => .error e
    | .ok ret' => attachHeaders respHeaders ret' rest

/-- The failure branch's `'[{statuscode}] {status}: {message}'.format(**failure_data)`:
needs a dict holding all three keys (a missing key raises KeyError, a non-dict
raises TypeError); returns the formatted string and the statuscode value. -/
def formatFailure : XVal → Except PyError (String × XVal)
  | .map m =>
    match lookupKV m "statuscode", lookupKV m "status", lookupKV m "message" with
    | some sc, some st, some mg =>
      .ok ("[" ++ pyStr sc ++ "] " ++ pyStr st ++ ": " ++ pyStr mg, sc)
    | none, _, _ => .error (.keyError "statuscode")
    | _, none, _ => .error (.keyError "status")
    | _, _, none => .error (.keyError "message")
  | _ => .error (.typeError "format argument must be a mapping")

/-- The `match failure_data['statuscode']` of `NextCloudTalkAPI.query`: the
numeric code (a decoded string) picks the exception class, anything not in
the table falls to the generic `NextCloudTalkException`. -/
def classifyStatus (sc : XVal) (s : String) : PyError :=
  match sc with
  | .str c =>
    if c = "400" then .badRequest s
    else if c = "401" then .unauthorized s
    else if c = "403" then .forbidden s
    else if c = "404" then .notFound s
    else if c = "409" then .conflict s
    else if c = "412" then .preconditionFailed s
    else .generic s
  | _ => .generic s

/-- `NextCloudTalkAPI.query` after the session returned `resp`: on `request.ok`
take `request_data['ocs']['data'] or {}` (a KeyError there is turned into the
message concatenation `'Unable to parse response: ' + request_data`, which
itself raises TypeError since `request_data` is a dict) and attach the captured
headers; otherwise decode `['ocs']['meta']`, format the failure string and
raise the class matching the statuscode. -/
def query (resp : HResp) (includeHeaders : List String) : Except PyError XVal :=
  if resp.ok then
    match getPath resp.body ["ocs", "data"] with
    | .error (.keyError _) =>
      .error (.typeError "can only concatenate str (not dict) to str")
    | .error e => .error e
    | .ok d => attachHeaders resp.headers (pyOr d (.map [])) includeHeaders
  else
    match getPath resp.body ["ocs", "meta"] with
    | .error e => .error e
    | .ok fd =>
      match formatFailure fd with
      | .error e => .error e
      | .ok (s, sc) => .error (classifyStatus sc s)

/-- Python list comprehension `[f(x) for x in xs]` over a fallible `f`: the
first exception propagates. -/
def mapExcept {α β : Type} (f : α → Except PyError β) : List α → Except PyError (List β)
  | [] => .ok []
  | x :: xs =>
    match f x with
    | .error e => .error e
    | .ok y =>
      match mapExcept f xs with
      | .error e => .error e
      | .ok ys => .ok (y :: ys)

/-- The length of a successful listing result, `none` when an exception was
raised instead. -/
def okLength {α : Type} : Except PyError (List α) → Option Nat
  | .ok l => some l.length
  | .error _ => none

/-! ## Capability cache (`NextCloudTalk` in `__init__.py`) -/

/-- The memoized discovery state of a client: `__capabilities`, `__config`,
`__server_version`. -/
structure ClientCache where
  capabilities : XVal
  config : XVal
  server_version : XVal

/-- The class-level initial values: `[]`, an empty dict, and an empty string. -/
def initCache : ClientCache := ⟨.arr [], .map [], .str ""⟩

/-- The classified structural failure `NextCloudTalkException("Unable to
populate caches")`. -/
def structuralError : PyError := .generic "Unable to populate caches"

/-- `NextCloudTalk.__populate_caches`: one discovery fetch, then the three
assignments run in order inside a `try` whose `except TypeError` raises the
structural error.  A TypeError in a lookup chain (an intermediate node decoded
as None) is classified; a KeyError (the mapping lacks the key) escapes as is;
assignments made before the failing one persist. -/
def populate_caches (c : ClientCache) (discovery : XVal) : ClientCache × Option PyError :=
  match getPath discovery ["ocs", "data", "capabilities", "spreed", "features", "element"] with
  | .error (.typeError _) => (c, some structuralError)
  | .error e => (c, some e)
  | .ok caps =>
    let c1 : ClientCache := ⟨caps, c.config, c.server_version⟩
    match getPath discovery ["ocs", "data", "capabilities", "spreed", "config"] with
    | .error (.typeError _) => (c1, some structuralError)
    | .error e => (c1, some e)
    | .ok conf =>
      let c2 : ClientCache := ⟨caps, conf, c.server_version⟩
      match getPath discovery ["ocs", "data", "version", "string"] with
      | .error (.typeError _) => (c2, some structuralError)
      | .error e => (c2, some e)
      | .ok ver => (⟨caps, conf, ver⟩, none)

/-- Which cached accessor is being read: `capabilities`, `config` or
`server_version`. -/
inductive CacheAccessor where
  | caps : CacheAccessor
  | config : CacheAccessor
  | version : CacheAccessor

/-- The memoized field an accessor reads. -/
def cacheField (c : ClientCache) : CacheAccessor → XVal
  | .caps => c.capabilities
  | .config => c.config
  | .version => c.server_version

/-- One accessor call: the guard is Python falsiness (`if not self.__capabilities`
and its siblings); a falsy field triggers `__populate_caches` (one discovery
fetch, counted), then the freshly assigned field is returned. -/
def accessCache (c : ClientCache) (discovery : XVal) (a : CacheAccessor) :
    ClientCache × Nat × Except PyError XVal :=
  if truthy (cacheField c a) then (c, 0, .ok (cacheField c a))
  else
    match populate_caches c discovery with
    | (c', none) => (c', 1, .ok (cacheField c' a))
    | (c', some e) => (c', 1, .error e)

/-- A sequence of accessor calls against one client, returning the final cache
state and the total number of discovery fetches issued. -/
def runAccessors (c : ClientCache) (discovery : XVal) : List CacheAccessor → ClientCache × Nat
  | [] => (c, 0)
  | a :: rest =>
    let s := accessCache c discovery a
    let t := runAccessors s.1 discovery rest
    (t.1, s.2.1 + t.2)

/-! ## Resource model (`api.py`) -/

/-- A `Chat`: the conversation token it was built with and the mutable
response-header cache `self.headers`. -/
structure Chat where
  token : XVal
  headers : List (String × XVal)

/-- A `Conversation`: its decoded fields (merged into `__dict__`) and the
`Chat` generated at construction time. -/
structure Conversation where
  fields : List (String × XVal)
  chat : Chat

/-- A `Participant`: its decoded fields and the back-reference to the owning
room's fields. -/
structure Participant where
  fields : List (String × XVal)
  roomFields : List (String × XVal)

/-- A `Message`: its decoded fields and the owning `Chat`. -/
structure Message where
  fields : List (String × XVal)
  chat : Chat

/-- `Conversation.__init__`: merge the decoded mapping into `__dict__` (a
non-dict raises), build the `ChatAPI` (which checks the `chat-v2` capability)
and then `Chat(self.token, ...)` (an AttributeError when the mapping carried
no token). -/
def mkConversation (caps : List String) (data : XVal) : Except PyError Conversation :=
  match data with
  | .map fields =>
    if "chat-v2" ∈ caps then
      match lookupKV fields "token" with
      | some tok => .ok ⟨fields, ⟨tok, []⟩⟩
      | none => .error (.attributeError "token")
    else .error (.notCapable "Unable to determine chat endpoint.")
  | _ => .error (.typeError "cannot convert dictionary update sequence")

/-- `Participant.__init__`: merge the decoded mapping, keep the room
back-reference. -/
def mkParticipant (room : Conversation) (data : XVal) : Except PyError Participant :=
  match data with
  | .map m => .ok ⟨m, room.fields⟩
  | _ => .error (.typeError "cannot convert dictionary update sequence")

/-- `Message.__init__`: merge the decoded mapping, keep the owning chat. -/
def mkMessage (c : Chat) (data : XVal) : Except PyError Message :=
  match data with
  | .map m => .ok ⟨m, c⟩
  | _ => .error (.typeError "cannot convert dictionary update sequence")

/-- The result dispatch of `ConversationAPI.list`: empty payload, lone
mapping, list of mappings, or the unexpected-shape error (whose message
formats the element). -/
def roomsDispatchList (caps : List String) (request : XVal) :
    Except PyError (List Conversation) :=
  if truthy request then
    match getItem request "element" with
    | .error e => .error e
    | .ok (.map m) =>
      match mkConversation caps (.map m) with
      | .error e => .error e
      | .ok c => .ok [c]
    | .ok (.arr xs) => mapExcept (mkConversation caps) xs
    | .ok other => .error (.generic ("Unexpected result: " ++ pyStr other))
  else .ok []

/-- The result dispatch of `ConversationAPI.open_conversation_list` (its
unexpected-shape message formats the whole payload). -/
def roomsDispatchOpen (caps : List String) (request : XVal) :
    Except PyError (List Conversation) :=
  if truthy request then
    match getItem request "element" with
    | .error e => .error e
    | .ok (.map m) =>
      match mkConversation caps (.map m) with
      | .error e => .error e
      | .ok c => .ok [c]
    | .ok (.arr xs) => mapExcept (mkConversation caps) xs
    | .ok _ => .error (.generic ("Unknown result: " ++ pyStr request))
  else .ok []

/-- `ConversationAPI.list`: issue `GET /room` and dispatch on the payload
shape. -/
def conversation_list (caps : List String) (env : Env)
    (status_update include_status : Bool) :
    Except PyError (List Conversation) × List Request :=
  let data : List (String × XVal) :=
    [("noStatusUpdate", .int (if status_update then 1 else 0)),
     ("includeStatus", .bool include_status)]
  let r : Request := ⟨"GET", "/room", data, []⟩
  match query (env r) [] with
  | .error e => (.error e, [r])
  | .ok request => (roomsDispatchList caps request, [r])

/-- `ConversationAPI.open_conversation_list`: issue `GET /listed-room` and
dispatch on the payload shape. -/
def open_conversation_list (caps : List String) (env : Env) :
    Except PyError (List Conversation) × List Request :=
  let r : Request := ⟨"GET", "/listed-room", [], []⟩
  match query (env r) [] with
  | .error e => (.error e, [r])
  | .ok request => (roomsDispatchOpen caps request, [r])

/-- The result handling of the `Conversation.participants` property: it reads
`participants['element']` directly (no empty-payload branch) and wraps each
element. -/
def participantsOf (room : Conversation) (request : XVal) :
    Except PyError (List Participant) :=
  match getItem request "element" with
  | .error e => .error e
  | .ok (.map m) => .ok [⟨m, room.fields⟩]
  | .ok (.arr xs) => mapExcept (mkParticipant room) xs
  | .ok other =>
    .error (.generic ("Unknown Return type for participants: " ++ pyTypeName other))

/-- `Conversation.participants`: a fresh `GET /room/token/participants` on
every access, then the wrap-each-element dispatch. -/
def Conversation.participants (c : Conversation) (env : Env) (include_status : Bool) :
    Except PyError (List Participant) × List Request :=
  match lookupKV c.fields "token" with
  | none => (.error (.attributeError "token"), [])
  | some tok =>
    let r : Request := ⟨"GET", "/room/" ++ pyStr tok ++ "/participants",
                        [("includeStatus", .bool include_status)], []⟩
    match query (env r) [] with
    | .error e => (.error e, [r])
    | .ok request => (participantsOf c request, [r])

/-- The result dispatch of `Chat.receive_messages`: `response['element']`
directly (no empty-payload branch), wrapping each element as a `Message`
bound to this chat. -/
def receiveDispatch (c : Chat) (response : XVal) : Except PyError (List Message) :=
  match getItem response "element" with
  | .error e => .error e
  | .ok (.map m) => .ok [⟨m, c⟩]
  | .ok (.arr xs) => mapExcept (mkMessage c) xs
  | .ok _ => .error (.generic ("Unknown return type for response: " ++ pyStr response))

/-- `Chat.receive_messages`: issue the `GET /chat/token` call requesting the
`X-Chat-Last-Given` and `X-Chat-Last-Common-Read` headers, write
`response.get('response_headers', {})` into the header cache, then dispatch
on the element shape. -/
def Chat.receive_messages (c : Chat) (env : Env) (look_into_future : Bool)
    (limit : Int) (timeout : Int) (last_known_message : Int)
    (last_common_read : Int) (set_read_marker : Bool) (include_last_known : Bool) :
    Except PyError (List Message) × Chat × List Request :=
  let data : List (String × XVal) :=
    [("lookIntoFuture", .int (if look_into_future then 1 else 0)),
     ("limit", .int limit),
     ("lastKnownMessageId", .int last_known_message),
     ("lastCommonReadId", .int last_common_read),
     ("timeout", .int timeout),
     ("setReadMaker", .int (if set_read_marker then 1 else 0)),
     ("includeLastKnown", .int (if include_last_known then 1 else 0))]
  let ih := ["X-Chat-Last-Given", "X-Chat-Last-Common-Read"]
  let r : Request := ⟨"GET", "/chat/" ++ pyStr c.token, data, ih⟩
  match query (env r) ih with
  | .error e => (.error e, c, [r])
  | .ok response =>
    match pyGetD response "response_headers" (.map []) with
    | .error e => (.error e, c, [r])
    | .ok (.map u) =>
      let c' : Chat := ⟨c.token, dictUpdate c.headers u⟩
      (receiveDispatch c' response, c', [r])
    | .ok _ => (.error (.typeError "dict.update requires a mapping"), c, [r])

/-- `Chat.clear_history`: `clear-history` capability gate, then the DELETE
call capturing `X-Chat-Last-Common-Read`, written into the header cache. -/
def Chat.clear_history (c : Chat) (caps : List String) (env : Env) :
    Except PyError XVal × Chat × List Request :=
  if "clear-history" ∈ caps then
    let ih := ["X-Chat-Last-Common-Read"]
    let r : Request := ⟨"DELETE", "/chat/" ++ pyStr c.token, [], ih⟩
    match query (env r) ih with
    | .error e => (.error e, c, [r])
    | .ok response =>
      match pyGetD response "response_headers" (.map []) with
      | .error e => (.error e, c, [r])
      | .ok (.map u) => (.ok response, ⟨c.token, dictUpdate c.headers u⟩, [r])
      | .ok _ => (.error (.typeError "dict.update requires a mapping"), c, [r])
  else (.error (.notCapable "Server does not support deletion of chat history."), c, [])

/-- Modelled from the spec: `api.py` imports a `constants` module
(ConversationType, NotificationLevel, ListableScope, Permissions) that is not
among the source files; the spec describes these only as client-side
name-to-wire-value enumerations consulted after the capability gate.  No claim
depends on the numeric wire values, so a member's wire value is represented by
its name. -/
def enumValue (member : String) : XVal := .str member

/-- `Conversation.set_description`: `room-description` capability gate, then
the PUT call.  The source's trailing `self.description = description` stands
after the `return` statement and is unreachable, so the conversation is
returned unchanged on every path. -/
def Conversation.set_description (c : Conversation) (caps : List String) (env : Env)
    (description : String) : Except PyError XVal × Conversation × List Request :=
  if "room-description" ∈ caps then
    match lookupKV c.fields "token" with
    | none => (.error (.attributeError "token"), c, [])
    | some tok =>
      let r : Request := ⟨"PUT", "/room/" ++ pyStr tok ++ "/description",
                          [("description", .str description)], []⟩
      (query (env r) [], c, [r])
  else (.error (.notCapable "Server does not support setting room descriptions"), c, [])

/-- `Conversation.read_only`: `read-only-rooms` capability gate, then the PUT
call. -/
def Conversation.read_only (c : Conversation) (caps : List String) (env : Env)
    (state : Int) : Except PyError XVal × Conversation × List Request :=
  if "read-only-rooms" ∈ caps then
    match lookupKV c.fields "token" with
    | none => (.error (.attributeError "token"), c, [])
    | some tok =>
      let r : Request := ⟨"PUT", "/room/" ++ pyStr tok ++ "/read-only",
                          [("state", .int state)], []⟩
      (query (env r) [], c, [r])
  else (.error (.notCapable "Server doesn't support read-only rooms."), c, [])

/-- `Conversation.add_to_favorites`: `favorites` capability gate, then the
POST call. -/
def Conversation.add_to_favorites (c : Conversation) (caps : List String) (env : Env) :
    Except PyError XVal × Conversation × List Request :=
  if "favorites" ∈ caps then
    match lookupKV c.fields "token" with
    | none => (.error (.attributeError "token"), c, [])
    | some tok =>
      let r : Request := ⟨"POST", "/room/" ++ pyStr tok ++ "/favorite", [], []⟩
      (query (env r) [], c, [r])
  else (.error (.notCapable "Server does not support user favorites."), c, [])

/-- `Conversation.remove_from_favorites`: `favorites` capability gate, then
the DELETE call (the source's sub-path really says `/favorites`). -/
def Conversation.remove_from_favorites (c : Conversation) (caps : List String)
    (env : Env) : Except PyError XVal × Conversation × List Request :=
  if "favorites" ∈ caps then
    match lookupKV c.fields "token" with
    | none => (.error (.attributeError "token"), c, [])
    | some tok =>
      let r : Request := ⟨"DELETE", "/room/" ++ pyStr tok ++ "/favorites", [], []⟩
      (query (env r) [], c, [r])
  else (.error (.notCapable "Server does not support user favorites."), c, [])

/-- `Conversation.change_listing_scope`: `listable-rooms` capability gate,
then the PUT call; the method itself returns None. -/
def Conversation.change_listing_scope (c : Conversation) (caps : List String)
    (env : Env) (scope : String) : Except PyError XVal × Conversation × List Request :=
  if "listable-rooms" ∈ caps then
    match lookupKV c.fields "token" with
    | none => (.error (.attributeError "token"), c, [])
    | some tok =>
      let r : Request := ⟨"PUT", "/room/" ++ pyStr tok ++ "/listable",
                          [("scope", enumValue scope)], []⟩
      match query (env r) [] with
      | .error e => (.error e, c, [r])
      | .ok _ => (.ok .null, c, [r])
  else (.error (.notCapable "Server does not support listable rooms."), c, [])

/-- `Conversation.set_call_notification_level`: `notification-calls`
capability gate, then the POST call. -/
def Conversation.set_call_notification_level (c : Conversation) (caps : List String)
    (env : Env) (notification_level : String) :
    Except PyError XVal × Conversation × List Request :=
  if "notification-calls" ∈ caps then
    match lookupKV c.fields "token" with
    | none => (.error (.attributeError "token"), c, [])
    | some tok =>
      let r : Request := ⟨"POST", "/room/" ++ pyStr tok ++ "/notify-calls",
                          [("level", enumValue notification_level)], []⟩
      (query (env r) [], c, [r])
  else
    (.error (.notCapable "Server does not support setting call notification levels."),
     c, [])

/-- `Conversation.set_permissions_for_participants`: the body dict is built,
then the endpoint f-string reads `self.room.token`.  `room` is never a
declared attribute — it exists only if the decoded mapping carried a `room`
key, and even then the decoded value (None, string, dict or list) has no
`token` attribute — so the f-string raises AttributeError before
`self.api.query` is ever invoked. -/
def Conversation.set_permissions_for_participants (c : Conversation) (_env : Env)
    (permissions : Int) (mode : String) :
    Except PyError XVal × Conversation × List Request :=
  let _data : List (String × XVal) :=
    [("mode", .str mode), ("permissions", .int permissions)]
  match lookupKV c.fields "room" with
  | none => (.error (.attributeError "room"), c, [])
  | some _ => (.error (.attributeError "token"), c, [])

/-- The raw-string sentinel `r'{object}'` that `Message.delete` compares the
message body against. -/
def richObjectSentinel : String := "\x7bobject\x7d"

/-- The `message` attribute of a `Message`: the decoded field when present,
else the class-level default `''`. -/
def Message.message (m : Message) : XVal :=
  (lookupKV m.fields "message").getD (.str "")

/-- The `id` attribute of a `Message`: the decoded field when present, else
the class-level default `''`. -/
def Message.id (m : Message) : XVal :=
  (lookupKV m.fields "id").getD (.str "")

/-- The remote part of `Message.delete` (after the capability gate): the
DELETE call capturing `X-Chat-Last-Common-Read`, whose captured values are
written into the owning chat's header cache
(`self.chat.headers.update(response['response_headers'])`). -/
def Message.deleteCall (m : Message) (env : Env) :
    Except PyError XVal × Message × List Request :=
  let ih := ["X-Chat-Last-Common-Read"]
  let r : Request := ⟨"DELETE", "/chat/" ++ pyStr m.chat.token ++ "/" ++ pyStr m.id,
                      [], ih⟩
  match query (env r) ih with
  | .error e => (.error e, m, [r])
  | .ok response =>
    match getItem response "response_headers" with
    | .error e => (.error e, m, [r])
    | .ok (.map u) =>
      (.ok response, ⟨m.fields, ⟨m.chat.token, dictUpdate m.chat.headers u⟩⟩, [r])
    | .ok _ => (.error (.typeError "dict.update requires a mapping"), m, [r])

/-- `Message.delete`: compare the message body with the rich-object sentinel;
the matching branch checks its capability (`rich-object-delete` for the
sentinel, `delete-messages` otherwise) and raises `NextCloudTalkNotCapable`
before any remote call when it is absent. -/
def Message.delete (m : Message) (caps : List String) (env : Env) :
    Except PyError XVal × Message × List Request :=
  let isRich : Bool :=
    match m.message with
    | .str s => s == richObjectSentinel
    | _ => false
  if isRich then
    if "rich-object-delete" ∈ caps then Message.deleteCall m env
    else (.error (.notCapable "Server does not support deletion of rich objects."), m, [])
  else
    if "delete-messages" ∈ caps then Message.deleteCall m env
    else (.error (.notCapable "Server does not support message deletion."), m, [])

/-! ## Rich-object registry (`rich_objects.py`) -/

/-- The base `NextCloudTalkRichObject`: an id and a display name. -/
structure NextCloudTalkRichObject where
  id : String
  name : String

/-- The base `metadata` property: exactly the id and the name. -/
def NextCloudTalkRichObject.metadata (o : NextCloudTalkRichObject) :
    List (String × String) :=
  [("id", o.id), ("name", o.name)]

/-- The `Call` rich object: the base fields plus `call_type`. -/
structure Call where
  id : String
  name : String
  call_type : String

/-- `Call.metadata`: id, name and the added `call-type` field. -/
def Call.metadata (o : Call) : List (String × String) :=
  [("id", o.id), ("name", o.name), ("call-type", o.call_type)]

/-- The `GeoLocation` rich object, constructed from a name and the two
coordinates (its id is synthesized, not supplied). -/
structure GeoLocation where
  name : String
  latitude : String
  longitude : String

/-- The id `GeoLocation.__init__` synthesizes: `geo:<lat>,<lon>`. -/
def GeoLocation.id (g : GeoLocation) : String :=
  "geo:" ++ g.latitude ++ "," ++ g.longitude

/-- `GeoLocation.metadata`: the synthesized id, the name, and the added
latitude/longitude fields. -/
def GeoLocation.metadata (g : GeoLocation) : List (String × String) :=
  [("id", "geo:" ++ g.latitude ++ "," ++ g.longitude), ("name", g.name),
   ("latitude", g.latitude), ("longitude", g.longitude)]

/-! ## Envelope builders used by the theorems -/

/-- A success envelope wrapping a data payload: `ocs → data → payload`. -/
def dataEnvelope (payload : XVal) : XVal :=
  .map [("ocs", .map [("data", payload)])]

/-- A failure envelope carrying the status metadata: `ocs → meta →
(statuscode, status, message)`. -/
def metaEnvelope (code status message : String) : XVal :=
  .map [("ocs", .map [("meta",
    .map [("statuscode", .str code), ("status", .str status),
          ("message", .str message)])])]

/-- A successful response carrying a data payload and response headers. -/
def okResp (payload : XVal) (hs : List (String × String)) : HResp :=
  ⟨true, dataEnvelope payload, hs⟩

/-- A failed response carrying status metadata. -/
def failResp (code status message : String) : HResp :=
  ⟨false, metaEnvelope code status message, []⟩

/-- An environment answering every request with the same successful payload
(no response headers). -/
def envData (payload : XVal) : Env := fun _ => okResp payload []

/-- A payload whose `element` field is `e`. -/
def elemPayload (e : XVal) : XVal := .map [("element", e)]

/-- A one-field room mapping holding only its token, as the listing claims
need. -/
def roomElem (tok : String) : XVal := .map [("token", .str tok)]

/-- A conversation built from a decoded mapping that carries only its token
(used by several witnesses). -/
def convT : Conversation := ⟨[("token", XVal.str "roomtok")], ⟨XVal.str "roomtok", []⟩⟩

/-- A chat bound to a token, with an empty header cache. -/
def chatT : Chat := ⟨XVal.str "tkn", []⟩

/-! ## Discovery fixtures for the capability-cache claims -/

/-- A discovery response whose `spreed → config` decoded to None (an empty
`config` element), all other fields well-formed. -/
def discoveryEmptyConfig : XVal :=
  .map [("ocs", .map [("data", .map [
    ("capabilities", .map [("spreed", .map [
      ("features", .map [("element", .arr [.str "conversation-v4"])]),
      ("config", .null)])]),
    ("version", .map [("string", .str "22.2.3")])])])]

/-- A fully well-formed discovery response with non-empty features, config
and version. -/
def discoveryGood : XVal :=
  .map [("ocs", .map [("data", .map [
    ("capabilities", .map [("spreed", .map [
      ("features", .map [("element", .arr [.str "conversation-v4", .str "chat-v2"])]),
      ("config", .map [("chat", .map [("max-length", .str "32000")])])])]),
    ("version", .map [("string", .str "22.2.3")])])])]

/-- The cache state `discoveryGood` populates. -/
def goodCache : ClientCache :=
  ⟨.arr [.str "conversation-v4", .str "chat-v2"],
   .map [("chat", .map [("max-length", .str "32000")])],
   .str "22.2.3"⟩

/-- A discovery response whose `capabilities` mapping has no `spreed` key at
all (a server without Talk). -/
def discoveryNoSpreed : XVal :=
  .map [("ocs", .map [("data", .map [("capabilities", .map [("files", .null)])])])]

/-- A discovery response whose `spreed` field decoded to None (present but
empty). -/
def discoverySpreedNull : XVal :=
  .map [("ocs", .map [("data", .map [("capabilities", .map [("spreed", .null)])])])]

/-- A discovery response whose `spreed → features` decoded to None. -/
def discoveryFeaturesNull : XVal :=
  .map [("ocs", .map [("data", .map [("capabilities",
    .map [("spreed", .map [("features", .null)])])])])]

/-- A discovery response with well-formed capabilities and config but a
`version` mapping lacking the `string` key. -/
def discoveryNoVersionString : XVal :=
  .map [("ocs", .map [("data", .map [
    ("capabilities", .map [("spreed", .map [
      ("features", .map [("element", .arr [.str "conversation-v4"])]),
      ("config", .map [("chat", .null)])])]),
    ("version", .map [("major", .str "22")])])])]

/-! ## Helper lemmas -/

/-- An accessor call on a truthy cached field returns the cached value and
issues no fetch. -/
theorem accessCache_truthy (c : ClientCache) (d : XVal) (a : CacheAccessor)
    (h : truthy (cacheField c a) = true) :
    accessCache c d a = (c, 0, .ok (cacheField c a)) := by
  simp [accessCache, h]

/-- A run of accessor calls on an all-truthy cache issues no fetch and leaves
the cache unchanged. -/
theorem runAccessors_truthy (c : ClientCache) (d : XVal)
    (h : ∀ a, truthy (cacheField c a) = true) :
    ∀ l : List CacheAccessor, runAccessors c d l = (c, 0) := by
  intro l
  induction l with
  | nil => rfl
  | cons a rest ih => simp [runAccessors, accessCache_truthy c d a (h a), ih]

/-! ## Claim C8 -/

/-- Claim C8: every rich-object variant's `metadata()` extends the base
contract by adding fields only: the base class yields exactly id and name,
`Call` adds `call-type` after them, and a `GeoLocation` built from name
`Spot`, latitude `1.23`, longitude `4.56` yields exactly the four fields with
the id synthesized as `geo:1.23,4.56` (stated both at the concrete scenario
and for arbitrary coordinates). -/
theorem C8_rich_object_metadata (i n ct nm lat lon : String) :
    NextCloudTalkRichObject.metadata ⟨i, n⟩ = [("id", i), ("name", n)] ∧
    Call.metadata ⟨i, n, ct⟩ =
      NextCloudTalkRichObject.metadata ⟨i, n⟩ ++ [("call-type", ct)] ∧
    GeoLocation.metadata ⟨"Spot", "1.23", "4.56"⟩ =
      [("id", "geo:1.23,4.56"), ("name", "Spot"),
       ("latitude", "1.23"), ("longitude", "4.56")] ∧
    GeoLocation.metadata ⟨nm, lat, lon⟩ =
      [("id", GeoLocation.id ⟨nm, lat, lon⟩), ("name", nm),
       ("latitude", lat), ("longitude", lon)] := by
  refine ⟨rfl, rfl, rfl, rfl⟩

/-! ## Claim C9 -/

/-- Claim C9: a `Conversation` built from a decoded mapping without a `room`
key raises AttributeError locally in `set_permissions_for_participants` and
issues no remote call, for all permission and mode arguments and whatever the
server would answer. -/
theorem C9_set_permissions_missing_room (c : Conversation) (env : Env)
    (permissions : Int) (mode : String)
    (h : lookupKV c.fields "room" = none) :
    Conversation.set_permissions_for_participants c env permissions mode =
      (.error (.attributeError "room"), c, []) := by
  simp [Conversation.set_permissions_for_participants, h]

/-- Witness for C9 at a concrete conversation, permission and mode. -/
theorem C9_set_permissions_missing_room_witness :
    Conversation.set_permissions_for_participants convT (envData XVal.null) 7 "add" =
      (.error (.attributeError "room"), convT, []) :=
  C9_set_permissions_missing_room convT (envData XVal.null) 7 "add" rfl

/-! ## Claim C2 -/

/-- Claim C2: on a non-successful HTTP status the Gateway raises exactly the
error kind mapped to the envelope's numeric status code (400 BadRequest, 401
Unauthorized, 403 Forbidden, 404 NotFound, 409 Conflict, 412
PreconditionFailed), any other code raises the generic kind, and on a
successful status no error is raised and the inner data payload is
returned. -/
theorem C2_status_code_mapping (code status msg : String) (payload : XVal)
    (hs : List (String × String))
    (h1 : code ≠ "400") (h2 : code ≠ "401") (h3 : code ≠ "403")
    (h4 : code ≠ "404") (h5 : code ≠ "409") (h6 : code ≠ "412") :
    query (failResp "400" status msg) [] =
      .error (.badRequest ("[" ++ "400" ++ "] " ++ status ++ ": " ++ msg)) ∧
    query (failResp "401" status msg) [] =
      .error (.unauthorized ("[" ++ "401" ++ "] " ++ status ++ ": " ++ msg)) ∧
    query (failResp "403" status msg) [] =
      .error (.forbidden ("[" ++ "403" ++ "] " ++ status ++ ": " ++ msg)) ∧
    query (failResp "404" status msg) [] =
      .error (.notFound ("[" ++ "404" ++ "] " ++ status ++ ": " ++ msg)) ∧
    query (failResp "409" status msg) [] =
      .error (.conflict ("[" ++ "409" ++ "] " ++ status ++ ": " ++ msg)) ∧
    query (failResp "412" status msg) [] =
      .error (.preconditionFailed ("[" ++ "412" ++ "] " ++ status ++ ": " ++ msg)) ∧
    query (failResp code status msg) [] =
      .error (.generic ("[" ++ code ++ "] " ++ status ++ ": " ++ msg)) ∧
    query (okResp payload hs) [] = .ok (pyOr payload (XVal.map [])) := by
  refine ⟨rfl, rfl, rfl, rfl, rfl, rfl, ?_, rfl⟩
  have hq : query (failResp code status msg) [] =
      .error (classifyStatus (.str code) ("[" ++ code ++ "] " ++ status ++ ": " ++ msg)) :=
    rfl
  have hc : classifyStatus (.str code) ("[" ++ code ++ "] " ++ status ++ ": " ++ msg) =
      .generic ("[" ++ code ++ "] " ++ status ++ ": " ++ msg) := by
    simp [classifyStatus, h1, h2, h3, h4, h5, h6]
  rw [hq, hc]

/-- Witness for C2 at the unlisted code 500 and a concrete payload. -/
theorem C2_status_code_mapping_witness :
    query (failResp "500" "Internal Server Error" "boom") [] =
      .error (.generic ("[" ++ "500" ++ "] " ++ "Internal Server Error" ++ ": " ++ "boom")) ∧
    query (okResp (XVal.map [("element", XVal.null)]) []) [] =
      .ok (pyOr (XVal.map [("element", XVal.null)]) (XVal.map [])) := by
  have h := C2_status_code_mapping "500" "Internal Server Error" "boom"
    (XVal.map [("element", XVal.null)]) []
    (by decide) (by decide) (by decide) (by decide) (by decide) (by decide)
  exact ⟨h.2.2.2.2.2.2.1, h.2.2.2.2.2.2.2⟩

/-! ## Claim C5 -/

/-- Counterexample to C5 as stated: a discovery response whose decoded
`capabilities` mapping lacks the `spreed` field makes cache population raise
a bare KeyError — an unclassified error escaping — rather than the library's
structural-error kind. -/
theorem C5_keyerror_escape_counterexample :
    (populate_caches initCache discoveryNoSpreed).2 = some (.keyError "spreed") ∧
    (populate_caches initCache discoveryNoSpreed).2 ≠ some structuralError := by
  refine ⟨rfl, ?_⟩
  rw [show (populate_caches initCache discoveryNoSpreed).2 =
      some (.keyError "spreed") from rfl]
  decide

/-- Claim C5 (amended): cache population raises the structural-error kind
when a lookup step lands on an empty node (a field decoded as None, e.g. an
empty `spreed` or `features` element); but when a decoded mapping lacks an
expected key entirely (no `spreed` key, or a `version` mapping without
`string`), an unclassified key-lookup error escapes instead of the
structural kind. -/
theorem C5_structural_error_amended :
    (populate_caches initCache discoverySpreedNull).2 = some structuralError ∧
    (populate_caches initCache discoveryFeaturesNull).2 = some structuralError ∧
    (populate_caches initCache discoveryNoSpreed).2 = some (.keyError "spreed") ∧
    (populate_caches initCache discoveryNoVersionString).2 = some (.keyError "string") := by
  refine ⟨rfl, rfl, rfl, rfl⟩

/-! ## Claim C4 -/

/-- Counterexample to C4 as stated: on a discovery response whose `config`
field decoded as None (empty element), the first `capabilities()` call does
populate all three fields with one fetch, but the next `config()` call finds
its memoized field falsy and issues a second discovery fetch — so across two
accessor calls two discovery calls are issued, not one. -/
theorem C4_second_fetch_counterexample :
    (runAccessors initCache discoveryEmptyConfig [CacheAccessor.caps]).2 = 1 ∧
    (runAccessors initCache discoveryEmptyConfig
      [CacheAccessor.caps, CacheAccessor.config]).2 = 2 := by
  refine ⟨rfl, rfl⟩

/-- Claim C4 (amended): provided the discovery fetch succeeds and the three
populated values are all non-falsy (non-empty capability list, non-empty
config mapping, non-empty version string), the first call to any accessor on
an un-populated cache populates all three fields together via exactly one
discovery fetch, returns the fresh value, and across any further sequence of
accessor calls no additional discovery call is issued and the cached state
never changes. -/
theorem C4_capability_cache_populate_once (d : XVal) (c1 : ClientCache)
    (hpop : populate_caches initCache d = (c1, none))
    (h1 : truthy c1.capabilities = true) (h2 : truthy c1.config = true)
    (h3 : truthy c1.server_version = true)
    (a : CacheAccessor) (rest : List CacheAccessor) :
    runAccessors initCache d (a :: rest) = (c1, 1) ∧
    accessCache initCache d a = (c1, 1, .ok (cacheField c1 a)) ∧
    ∀ b : CacheAccessor, accessCache c1 d b = (c1, 0, .ok (cacheField c1 b)) := by
  have hft : ∀ x : CacheAccessor, truthy (cacheField initCache x) = false := by
    intro x; cases x <;> rfl
  have hall : ∀ x : CacheAccessor, truthy (cacheField c1 x) = true := by
    intro x
    cases x
    · exact h1
    · exact h2
    · exact h3
  have hacc : accessCache initCache d a = (c1, 1, .ok (cacheField c1 a)) := by
    simp [accessCache, hft a, hpop]
  refine ⟨?_, hacc, fun b => accessCache_truthy c1 d b (hall b)⟩
  simp [runAccessors, hacc, runAccessors_truthy c1 d hall rest]

/-- Witness for C4 at the well-formed discovery fixture: three accessor calls
issue exactly one fetch and land on the populated cache. -/
theorem C4_capability_cache_populate_once_witness :
    runAccessors initCache discoveryGood
      [CacheAccessor.caps, CacheAccessor.config, CacheAccessor.version] =
      (goodCache, 1) :=
  (C4_capability_cache_populate_once discoveryGood goodCache rfl rfl rfl rfl
    CacheAccessor.caps [CacheAccessor.config, CacheAccessor.version]).1

/-! ## Claim C6 -/

/-- Claim C6: `Message.delete` selects its required capability locally, before
any remote call, by comparing the message body with the rich-object sentinel:
a body equal to the sentinel requires `rich-object-delete`, any other body
requires `delete-messages`; when the selected capability is absent the call
raises NotCapable, issues no request and leaves the message (and its chat's
header cache) unchanged. -/
theorem C6_message_delete_capability_selection (m : Message) (caps : List String)
    (env : Env) :
    (m.message = XVal.str richObjectSentinel → "rich-object-delete" ∉ caps →
      Message.delete m caps env =
        (.error (.notCapable "Server does not support deletion of rich objects."),
         m, [])) ∧
    (m.message ≠ XVal.str richObjectSentinel → "delete-messages" ∉ caps →
      Message.delete m caps env =
        (.error (.notCapable "Server does not support message deletion."), m, [])) := by
  constructor
  · intro hsent hcap
    simp [Message.delete, hsent, hcap]
  · intro hsent hcap
    have hrich : (match m.message with
        | .str s => s == richObjectSentinel
        | _ => false) = false := by
      cases hm : m.message with
      | str s =>
        simp only [beq_eq_false_iff_ne, ne_eq]
        intro hs
        exact hsent (by rw [hm, hs])
      | null => rfl
      | int n => rfl
      | bool b => rfl
      | arr xs => rfl
      | map kvs => rfl
    simp [Message.delete, hrich, hcap]

/-- Witness for C6: a sentinel-bodied message and a plain message, each
against an empty capability list. -/
theorem C6_message_delete_capability_selection_witness :
    Message.delete ⟨[("message", XVal.str richObjectSentinel)], chatT⟩ [] (envData XVal.null) =
      (.error (.notCapable "Server does not support deletion of rich objects."),
       ⟨[("message", XVal.str richObjectSentinel)], chatT⟩, []) ∧
    Message.delete ⟨[("message", XVal.str "hello")], chatT⟩ [] (envData XVal.null) =
      (.error (.notCapable "Server does not support message deletion."),
       ⟨[("message", XVal.str "hello")], chatT⟩, []) := by
  constructor
  · exact (C6_message_delete_capability_selection
      ⟨[("message", XVal.str richObjectSentinel)], chatT⟩ [] (envData XVal.null)).1
      rfl (by simp)
  · exact (C6_message_delete_capability_selection
      ⟨[("message", XVal.str "hello")], chatT⟩ [] (envData XVal.null)).2
      (fun h => absurd (XVal.str.inj h) (by decide)) (by simp)

/-! ## Claim C3 -/

/-- Claim C3: every capability-gated operation (set_description, read_only,
favorites, listing scope, call notification level, clear_history, message
deletion) on a client whose capability list lacks the required feature string
raises NotCapable locally and issues zero remote calls, and — the state being
left unchanged — a repeated invocation fails identically, again with zero
remote calls. -/
theorem C3_capability_gating_no_remote_calls (c : Conversation) (ch : Chat)
    (m : Message) (caps : List String) (env : Env)
    (description scope level : String) (state : Int)
    (hdesc : "room-description" ∉ caps) (hro : "read-only-rooms" ∉ caps)
    (hfav : "favorites" ∉ caps) (hlist : "listable-rooms" ∉ caps)
    (hncall : "notification-calls" ∉ caps) (hch : "clear-history" ∉ caps)
    (hdm : "delete-messages" ∉ caps) (hrod : "rich-object-delete" ∉ caps) :
    (Conversation.set_description c caps env description =
       (.error (.notCapable "Server does not support setting room descriptions"), c, []) ∧
     Conversation.set_description
       (Conversation.set_description c caps env description).2.1 caps env description =
       (.error (.notCapable "Server does not support setting room descriptions"), c, [])) ∧
    (Conversation.read_only c caps env state =
       (.error (.notCapable "Server doesn't support read-only rooms."), c, []) ∧
     Conversation.read_only
       (Conversation.read_only c caps env state).2.1 caps env state =
       (.error (.notCapable "Server doesn't support read-only rooms."), c, [])) ∧
    (Conversation.add_to_favorites c caps env =
       (.error (.notCapable "Server does not support user favorites."), c, []) ∧
     Conversation.add_to_favorites
       (Conversation.add_to_favorites c caps env).2.1 caps env =
       (.error (.notCapable "Server does not support user favorites."), c, [])) ∧
    (Conversation.remove_from_favorites c caps env =
       (.error (.notCapable "Server does not support user favorites."), c, []) ∧
     Conversation.remove_from_favorites
       (Conversation.remove_from_favorites c caps env).2.1 caps env =
       (.error (.notCapable "Server does not support user favorites."), c, [])) ∧
    (Conversation.change_listing_scope c caps env scope =
       (.error (.notCapable "Server does not support listable rooms."), c, []) ∧
     Conversation.change_listing_scope
       (Conversation.change_listing_scope c caps env scope).2.1 caps env scope =
       (.error (.notCapable "Server does not support listable rooms."), c, [])) ∧
    (Conversation.set_call_notification_level c caps env level =
       (.error (.notCapable "Server does not support setting call notification levels."),
        c, []) ∧
     Conversation.set_call_notification_level
       (Conversation.set_call_notification_level c caps env level).2.1 caps env level =
       (.error (.notCapable "Server does not support setting call notification levels."),
        c, [])) ∧
    (Chat.clear_history ch caps env =
       (.error (.notCapable "Server does not support deletion of chat history."), ch, []) ∧
     Chat.clear_history (Chat.clear_history ch caps env).2.1 caps env =
       (.error (.notCapable "Server does not support deletion of chat history."), ch, [])) ∧
    (∃ s, Message.delete m caps env = (.error (.notCapable s), m, []) ∧
       Message.delete (Message.delete m caps env).2.1 caps env =
         (.error (.notCapable s), m, [])) := by
  have e1 : Conversation.set_description c caps env description =
      (.error (.notCapable "Server does not support setting room descriptions"), c, []) := by
    simp [Conversation.set_description, hdesc]
  have e2 : Conversation.read_only c caps env state =
      (.error (.notCapable "Server doesn't support read-only rooms."), c, []) := by
    simp [Conversation.read_only, hro]
  have e3 : Conversation.add_to_favorites c caps env =
      (.error (.notCapable "Server does not support user favorites."), c, []) := by
    simp [Conversation.add_to_favorites, hfav]
  have e4 : Conversation.remove_from_favorites c caps env =
      (.error (.notCapable "Server does not support user favorites."), c, []) := by
    simp [Conversation.remove_from_favorites, hfav]
  have e5 : Conversation.change_listing_scope c caps env scope =
      (.error (.notCapable "Server does not support listable rooms."), c, []) := by
    simp [Conversation.change_listing_scope, hlist]
  have e6 : Conversation.set_call_notification_level c caps env level =
      (.error (.notCapable "Server does not support setting call notification levels."),
       c, []) := by
    simp [Conversation.set_call_notification_level, hncall]
  have e7 : Chat.clear_history ch caps env =
      (.error (.notCapable "Server does not support deletion of chat history."), ch, []) := by
    simp [Chat.clear_history, hch]
  have e8 : ∃ s, Message.delete m caps env = (.error (.notCapable s), m, []) := by
    cases hb : (match m.message with
        | .str s => s == richObjectSentinel
        | _ => false) with
    | true =>
      exact ⟨"Server does not support deletion of rich objects.",
        by simp [Message.delete, hb, hrod]⟩
    | false =>
      exact ⟨"Server does not support message deletion.",
        by simp [Message.delete, hb, hdm]⟩
  obtain ⟨s, hs⟩ := e8
  refine ⟨⟨e1, ?_⟩, ⟨e2, ?_⟩, ⟨e3, ?_⟩, ⟨e4, ?_⟩, ⟨e5, ?_⟩, ⟨e6, ?_⟩, ⟨e7, ?_⟩,
    ⟨s, hs, ?_⟩⟩
  · rw [e1]; exact e1
  · rw [e2]; exact e2
  · rw [e3]; exact e3
  · rw [e4]; exact e4
  · rw [e5]; exact e5
  · rw [e6]; exact e6
  · rw [e7]; exact e7
  · rw [hs]; exact hs

/-- Witness for C3: a concrete conversation, chat and message against an
empty capability list; the first component of each pair is exercised. -/
theorem C3_capability_gating_no_remote_calls_witness :
    Conversation.set_description convT [] (envData XVal.null) "d" =
      (.error (.notCapable "Server does not support setting room descriptions"),
       convT, []) ∧
    Chat.clear_history chatT [] (envData XVal.null) =
      (.error (.notCapable "Server does not support deletion of chat history."),
       chatT, []) := by
  have h := C3_capability_gating_no_remote_calls convT chatT
    ⟨[("message", XVal.str "hi")], chatT⟩ [] (envData XVal.null)
    "d" "none" "never" 0
    (by simp) (by simp) (by simp) (by simp) (by simp) (by simp) (by simp) (by simp)
  exact ⟨h.1.1, h.2.2.2.2.2.2.1.1⟩

/-! ## Claim C10 -/

/-- Claim C10: a successful `set_description` call returns the gateway
payload while leaving every local field of the Conversation unchanged (the
source's local-cache assignment `self.description = description` stands after
the `return` and is unreachable), so the local `description` attribute keeps
its prior value. -/
theorem C10_set_description_leaves_fields_unchanged (c : Conversation)
    (caps : List String) (env : Env) (description : String) (tok payload : XVal)
    (hs : List (String × String))
    (hcap : "room-description" ∈ caps)
    (htok : lookupKV c.fields "token" = some tok)
    (henv : ∀ r, env r = okResp payload hs) :
    Conversation.set_description c caps env description =
      (.ok (pyOr payload (XVal.map [])), c,
       [⟨"PUT", "/room/" ++ pyStr tok ++ "/description",
         [("description", XVal.str description)], []⟩]) ∧
    (Conversation.set_description c caps env description).2.1.fields = c.fields ∧
    lookupKV (Conversation.set_description c caps env description).2.1.fields
      "description" = lookupKV c.fields "description" := by
  have hq : query (okResp payload hs) [] = .ok (pyOr payload (XVal.map [])) := rfl
  have hmain : Conversation.set_description c caps env description =
      (.ok (pyOr payload (XVal.map [])), c,
       [⟨"PUT", "/room/" ++ pyStr tok ++ "/description",
         [("description", XVal.str description)], []⟩]) := by
    rw [show Conversation.set_description c caps env description =
        (if "room-description" ∈ caps then
          match lookupKV c.fields "token" with
          | none => (.error (.attributeError "token"), c, [])
          | some tok =>
            (query (env ⟨"PUT", "/room/" ++ pyStr tok ++ "/description",
              [("description", XVal.str description)], []⟩) [], c,
             [⟨"PUT", "/room/" ++ pyStr tok ++ "/description",
               [("description", XVal.str description)], []⟩])
         else (.error (.notCapable "Server does not support setting room descriptions"),
               c, [])) from rfl]
    rw [if_pos hcap, htok]
    show (query (env (⟨"PUT", "/room/" ++ pyStr tok ++ "/description",
        [("description", XVal.str description)], []⟩ : Request)) [], c,
      [(⟨"PUT", "/room/" ++ pyStr tok ++ "/description",
        [("description", XVal.str description)], []⟩ : Request)]) = _
    rw [henv _, hq]
  exact ⟨hmain, by rw [hmain], by rw [hmain]⟩

/-- Witness for C10 at a concrete conversation, capability list and server
payload. -/
theorem C10_set_description_leaves_fields_unchanged_witness :
    Conversation.set_description convT ["room-description"]
      (envData (XVal.map [("token", XVal.str "roomtok")])) "new text" =
      (.ok (pyOr (XVal.map [("token", XVal.str "roomtok")]) (XVal.map [])), convT,
       [⟨"PUT", "/room/" ++ pyStr (XVal.str "roomtok") ++ "/description",
         [("description", XVal.str "new text")], []⟩]) :=
  (C10_set_description_leaves_fields_unchanged convT ["room-description"]
    (envData (XVal.map [("token", XVal.str "roomtok")])) "new text"
    (XVal.str "roomtok") (XVal.map [("token", XVal.str "roomtok")]) []
    (by simp) rfl (fun _ => rfl)).1

/-! ## Claim C1 -/

/-- Mapping a fallible constructor that succeeds on every image of `h`
succeeds on the whole list and preserves its length (via `List.map`). -/
theorem mapExcept_map {α β γ : Type} (f : β → Except PyError γ) (h : α → β)
    (g : α → γ) (hf : ∀ x, f (h x) = .ok (g x)) :
    ∀ l : List α, mapExcept f (l.map h) = .ok (l.map g) := by
  intro l
  induction l with
  | nil => rfl
  | cons x xs ih => simp [List.map, mapExcept, hf x, ih]

/-- The chat state `chatT` reaches after one header-capturing call against an
environment that serves no response headers (both captured values None). -/
def chatT2 : Chat :=
  ⟨XVal.str "tkn",
   [("X-Chat-Last-Given", XVal.null), ("X-Chat-Last-Common-Read", XVal.null)]⟩

/-- Counterexample to C1 as stated: the participants fetch of a Conversation,
given a successful response whose data payload is absent/empty, does not
yield an empty sequence — it reads `participants['element']` unconditionally
and raises a bare KeyError. -/
theorem C1_participants_empty_payload_counterexample :
    (Conversation.participants convT (envData XVal.null) false).1 =
      .error (.keyError "element") ∧
    (Conversation.participants convT (envData XVal.null) false).1 ≠ .ok [] := by
  refine ⟨rfl, ?_⟩
  rw [show (Conversation.participants convT (envData XVal.null) false).1 =
      .error (.keyError "element") from rfl]
  intro hcon
  exact Except.noConfusion hcon

/-- Claim C1 (amended): for `list` and `open_conversation_list` the
normalization holds as claimed — an absent/empty data payload yields an empty
sequence, a lone mapping under `element` yields one element, a list of N
mappings yields N elements, any other `element` shape raises the
unexpected-shape error; the participants fetch and message retrieval agree on
the lone-mapping, N-mapping and other-shape cases but raise a key-lookup
error (not an empty sequence) on an absent/empty payload. -/
theorem C1_listing_normalization_amended (tok s : String) (tokens : List String)
    (flds : List (String × XVal)) (fldss : List (List (String × XVal))) :
    (conversation_list ["chat-v2"] (envData XVal.null) false false).1 = .ok [] ∧
    okLength (conversation_list ["chat-v2"]
      (envData (elemPayload (roomElem tok))) false false).1 = some 1 ∧
    okLength (conversation_list ["chat-v2"]
      (envData (elemPayload (.arr (tokens.map roomElem)))) false false).1 =
      some tokens.length ∧
    (conversation_list ["chat-v2"] (envData (elemPayload (.str s))) false false).1 =
      .error (.generic ("Unexpected result: " ++ s)) ∧
    (open_conversation_list ["chat-v2"] (envData XVal.null)).1 = .ok [] ∧
    okLength (open_conversation_list ["chat-v2"]
      (envData (elemPayload (roomElem tok)))).1 = some 1 ∧
    okLength (open_conversation_list ["chat-v2"]
      (envData (elemPayload (.arr (tokens.map roomElem))))).1 = some tokens.length ∧
    (∃ msg, (open_conversation_list ["chat-v2"] (envData (elemPayload (.str s)))).1 =
      .error (.generic msg)) ∧
    (Conversation.participants convT (envData XVal.null) false).1 =
      .error (.keyError "element") ∧
    okLength (Conversation.participants convT
      (envData (elemPayload (.map flds))) false).1 = some 1 ∧
    okLength (Conversation.participants convT
      (envData (elemPayload (.arr (fldss.map XVal.map)))) false).1 =
      some fldss.length ∧
    (Conversation.participants convT (envData (elemPayload (.str s))) false).1 =
      .error (.generic ("Unknown Return type for participants: " ++ "<class 'str'>")) ∧
    (Chat.receive_messages chatT (envData XVal.null) false 100 30 0 0 true false).1 =
      .error (.keyError "element") ∧
    okLength (Chat.receive_messages chatT
      (envData (elemPayload (.map flds))) false 100 30 0 0 true false).1 = some 1 ∧
    okLength (Chat.receive_messages chatT
      (envData (elemPayload (.arr (fldss.map XVal.map)))) false 100 30 0 0 true false).1 =
      some fldss.length ∧
    (∃ msg, (Chat.receive_messages chatT
      (envData (elemPayload (.str s))) false 100 30 0 0 true false).1 =
      .error (.generic msg)) := by
  have hconv : mapExcept (mkConversation ["chat-v2"]) (tokens.map roomElem) =
      .ok (tokens.map fun t =>
        (⟨[("token", XVal.str t)], ⟨XVal.str t, []⟩⟩ : Conversation)) :=
    mapExcept_map (mkConversation ["chat-v2"]) roomElem
      (fun t => (⟨[("token", XVal.str t)], ⟨XVal.str t, []⟩⟩ : Conversation))
      (fun _ => rfl) tokens
  have hpart : mapExcept (mkParticipant convT) (fldss.map XVal.map) =
      .ok (fldss.map fun fl => (⟨fl, convT.fields⟩ : Participant)) :=
    mapExcept_map (mkParticipant convT) XVal.map
      (fun fl => (⟨fl, convT.fields⟩ : Participant)) (fun _ => rfl) fldss
  have hmsg : mapExcept (mkMessage chatT2) (fldss.map XVal.map) =
      .ok (fldss.map fun fl => (⟨fl, chatT2⟩ : Message)) :=
    mapExcept_map (mkMessage chatT2) XVal.map
      (fun fl => (⟨fl, chatT2⟩ : Message)) (fun _ => rfl) fldss
  refine ⟨rfl, rfl, ?_, rfl, rfl, rfl, ?_, ⟨_, rfl⟩, rfl, rfl, ?_, rfl, rfl, rfl, ?_,
    ⟨_, rfl⟩⟩
  · rw [show (conversation_list ["chat-v2"]
        (envData (elemPayload (.arr (tokens.map roomElem)))) false false).1 =
      mapExcept (mkConversation ["chat-v2"]) (tokens.map roomElem) from rfl, hconv]
    simp [okLength]
  · rw [show (open_conversation_list ["chat-v2"]
        (envData (elemPayload (.arr (tokens.map roomElem))))).1 =
      mapExcept (mkConversation ["chat-v2"]) (tokens.map roomElem) from rfl, hconv]
    simp [okLength]
  · rw [show (Conversation.participants convT
        (envData (elemPayload (.arr (fldss.map XVal.map)))) false).1 =
      mapExcept (mkParticipant convT) (fldss.map XVal.map) from rfl, hpart]
    simp [okLength]
  · rw [show (Chat.receive_messages chatT
        (envData (elemPayload (.arr (fldss.map XVal.map)))) false 100 30 0 0 true false).1 =
      mapExcept (mkMessage chatT2) (fldss.map XVal.map) from rfl, hmsg]
    simp [okLength]

/-! ## Claim C7 -/

/-- Key lookup after a same-key write finds the written value. -/
theorem lookupKV_setItem_self {β : Type} (m : List (String × β)) (k : String) (v : β) :
    lookupKV (setItemList m k v) k = some v := by
  induction m with
  | nil => simp [setItemList, lookupKV]
  | cons a rest ih =>
    obtain ⟨k', v'⟩ := a
    by_cases hk : k' = k
    · simp [setItemList, hk, lookupKV]
    · have hk2 : ¬(k = k') := fun hkk => hk hkk.symm
      simp [setItemList, hk, lookupKV, hk2, ih]

/-- Key lookup after a write of a different key is unchanged. -/
theorem lookupKV_setItem_of_ne {β : Type} (m : List (String × β)) (k k' : String)
    (v : β) (h : k' ≠ k) : lookupKV (setItemList m k v) k' = lookupKV m k' := by
  induction m with
  | nil => simp [setItemList, lookupKV, h]
  | cons a rest ih =>
    obtain ⟨ka, va⟩ := a
    by_cases hk : ka = k
    · subst hk
      simp [setItemList, lookupKV, h, ih]
    · simp [setItemList, hk, lookupKV, ih]

/-- Lookup distributes over append when the key is absent on the left. -/
theorem lookupKV_append_of_none {β : Type} (l1 l2 : List (String × β)) (k : String) :
    lookupKV l1 k = none → lookupKV (l1 ++ l2) k = lookupKV l2 k := by
  induction l1 with
  | nil => intro _; rfl
  | cons a rest ih =>
    obtain ⟨k', v⟩ := a
    intro h
    rw [List.cons_append]
    simp only [lookupKV] at h ⊢
    by_cases hk : k = k'
    · rw [if_pos hk] at h; exact absurd h (by simp)
    · rw [if_neg hk] at h ⊢; exact ih h

/-- Both header-cache keys read back the values a two-key update wrote. -/
theorem lookup_dictUpdate_two {β : Type} (d : List (String × β)) (a b : β) :
    lookupKV (dictUpdate d [("X-Chat-Last-Given", a), ("X-Chat-Last-Common-Read", b)])
      "X-Chat-Last-Given" = some a ∧
    lookupKV (dictUpdate d [("X-Chat-Last-Given", a), ("X-Chat-Last-Common-Read", b)])
      "X-Chat-Last-Common-Read" = some b := by
  have hd : dictUpdate d [("X-Chat-Last-Given", a), ("X-Chat-Last-Common-Read", b)] =
      setItemList (setItemList d "X-Chat-Last-Given" a) "X-Chat-Last-Common-Read" b := rfl
  constructor
  · rw [hd, lookupKV_setItem_of_ne _ _ _ _ (by decide), lookupKV_setItem_self]
  · rw [hd, lookupKV_setItem_self]

/-- `attachOne` when no `response_headers` side channel exists yet. -/
theorem attachOne_fresh {m : List (String × XVal)} (hs : List (String × String))
    (h : String) (hm : lookupKV m "response_headers" = none) :
    attachOne (.map m) hs h =
      .ok (.map (m ++ [("response_headers", .map [(h, headerVal hs h)])])) := by
  simp [attachOne, hm]

/-- `attachOne` when the side channel exists and lacks this header. -/
theorem attachOne_found {m rh : List (String × XVal)} (hs : List (String × String))
    (h : String) (hm : lookupKV m "response_headers" = some (.map rh))
    (hh : lookupKV rh h = none) :
    attachOne (.map m) hs h =
      .ok (.map (setItemList m "response_headers"
        (.map (rh ++ [(h, headerVal hs h)])))) := by
  simp [attachOne, hm, hh]

/-- After one `receive_messages` call against a well-formed successful
response, the chat's header cache equals the prior cache updated with both
captured values. -/
theorem receive_updates_headers (c : Chat) (env : Env) (p : List (String × XVal))
    (hs : List (String × String)) (hne : p ≠ [])
    (hp : lookupKV p "response_headers" = none)
    (he : ∀ r, env r = ⟨true, dataEnvelope (.map p), hs⟩) :
    (Chat.receive_messages c env false 100 30 0 0 true false).2.1 =
      ⟨c.token, dictUpdate c.headers
        [("X-Chat-Last-Given", headerVal hs "X-Chat-Last-Given"),
         ("X-Chat-Last-Common-Read", headerVal hs "X-Chat-Last-Common-Read")]⟩ := by
  have ht : truthy (XVal.map p) = true := by
    cases p with
    | nil => exact absurd rfl hne
    | cons a l => rfl
  have hpy : pyOr (XVal.map p) (XVal.map []) = XVal.map p := by
    simp [pyOr, ht]
  have ha1 := @attachOne_fresh p hs "X-Chat-Last-Given" hp
  have hlk : lookupKV
      (p ++ [("response_headers",
        XVal.map [("X-Chat-Last-Given", headerVal hs "X-Chat-Last-Given")])])
      "response_headers" =
      some (XVal.map [("X-Chat-Last-Given", headerVal hs "X-Chat-Last-Given")]) := by
    rw [lookupKV_append_of_none p _ _ hp]; rfl
  have ha2 := @attachOne_found
    (p ++ [("response_headers",
      XVal.map [("X-Chat-Last-Given", headerVal hs "X-Chat-Last-Given")])])
    [("X-Chat-Last-Given", headerVal hs "X-Chat-Last-Given")]
    hs "X-Chat-Last-Common-Read" hlk rfl
  have hq2 : ∀ r, query (env r) ["X-Chat-Last-Given", "X-Chat-Last-Common-Read"] =
      .ok (.map (setItemList
        (p ++ [("response_headers",
          XVal.map [("X-Chat-Last-Given", headerVal hs "X-Chat-Last-Given")])])
        "response_headers"
        (.map ([("X-Chat-Last-Given", headerVal hs "X-Chat-Last-Given")] ++
          [("X-Chat-Last-Common-Read", headerVal hs "X-Chat-Last-Common-Read")])))) := by
    intro r
    rw [he r]
    show attachHeaders hs (pyOr (XVal.map p) (XVal.map []))
      ["X-Chat-Last-Given", "X-Chat-Last-Common-Read"] = _
    rw [hpy]
    simp [attachHeaders, ha1, ha2]
  have hQrh : lookupKV (setItemList
      (p ++ [("response_headers",
        XVal.map [("X-Chat-Last-Given", headerVal hs "X-Chat-Last-Given")])])
      "response_headers"
      (XVal.map ([("X-Chat-Last-Given", headerVal hs "X-Chat-Last-Given")] ++
        [("X-Chat-Last-Common-Read", headerVal hs "X-Chat-Last-Common-Read")])))
      "response_headers" =
      some (XVal.map ([("X-Chat-Last-Given", headerVal hs "X-Chat-Last-Given")] ++
        [("X-Chat-Last-Common-Read", headerVal hs "X-Chat-Last-Common-Read")])) :=
    lookupKV_setItem_self _ _ _
  simp only [Chat.receive_messages, hq2, pyGetD, hQrh, Option.getD]
  rfl

/-- Claim C7: after every message-fetch call that requests the
`X-Chat-Last-Given` and `X-Chat-Last-Common-Read` headers, both captured
values (the header's value, or None when the server omitted it) are written
into the Chat's header cache, overwriting prior values; in particular two
sequential fetches leave the cache holding the second response's values. -/
theorem C7_header_cache_overwrite (c : Chat) (env1 env2 : Env)
    (p1 p2 : List (String × XVal)) (h1 h2 : List (String × String))
    (hne1 : p1 ≠ []) (hp1 : lookupKV p1 "response_headers" = none)
    (hne2 : p2 ≠ []) (hp2 : lookupKV p2 "response_headers" = none)
    (he1 : ∀ r, env1 r = ⟨true, dataEnvelope (.map p1), h1⟩)
    (he2 : ∀ r, env2 r = ⟨true, dataEnvelope (.map p2), h2⟩) :
    lookupKV (Chat.receive_messages c env1 false 100 30 0 0 true false).2.1.headers
      "X-Chat-Last-Given" = some (headerVal h1 "X-Chat-Last-Given") ∧
    lookupKV (Chat.receive_messages c env1 false 100 30 0 0 true false).2.1.headers
      "X-Chat-Last-Common-Read" = some (headerVal h1 "X-Chat-Last-Common-Read") ∧
    lookupKV (Chat.receive_messages
        (Chat.receive_messages c env1 false 100 30 0 0 true false).2.1
        env2 false 100 30 0 0 true false).2.1.headers
      "X-Chat-Last-Given" = some (headerVal h2 "X-Chat-Last-Given") ∧
    lookupKV (Chat.receive_messages
        (Chat.receive_messages c env1 false 100 30 0 0 true false).2.1
        env2 false 100 30 0 0 true false).2.1.headers
      "X-Chat-Last-Common-Read" = some (headerVal h2 "X-Chat-Last-Common-Read") := by
  have s1 := receive_updates_headers c env1 p1 h1 hne1 hp1 he1
  have s2 := receive_updates_headers
    (Chat.receive_messages c env1 false 100 30 0 0 true false).2.1
    env2 p2 h2 hne2 hp2 he2
  refine ⟨?_, ?_, ?_, ?_⟩
  · rw [s1]; exact (lookup_dictUpdate_two _ _ _).1
  · rw [s1]; exact (lookup_dictUpdate_two _ _ _).2
  · rw [s2]; exact (lookup_dictUpdate_two _ _ _).1
  · rw [s2]; exact (lookup_dictUpdate_two _ _ _).2

/-- A payload and two header sets for the C7 witness scenario. -/
def p1W : List (String × XVal) := [("element", XVal.arr [])]

/-- First response's headers: only `X-Chat-Last-Given` present. -/
def h1W : List (String × String) := [("X-Chat-Last-Given", "100")]

/-- Second response's headers: both cursors present, with newer values. -/
def h2W : List (String × String) :=
  [("X-Chat-Last-Given", "200"), ("X-Chat-Last-Common-Read", "150")]

/-- The environment serving the first C7 witness response. -/
def env1W : Env := fun _ => ⟨true, dataEnvelope (.map p1W), h1W⟩

/-- The environment serving the second C7 witness response. -/
def env2W : Env := fun _ => ⟨true, dataEnvelope (.map p1W), h2W⟩

/-- Witness for C7: two concrete sequential fetches leave the cache holding
the second response's captured values. -/
theorem C7_header_cache_overwrite_witness :
    lookupKV (Chat.receive_messages chatT env1W false 100 30 0 0 true false).2.1.headers
      "X-Chat-Last-Given" = some (headerVal h1W "X-Chat-Last-Given") ∧
    lookupKV (Chat.receive_messages chatT env1W false 100 30 0 0 true false).2.1.headers
      "X-Chat-Last-Common-Read" = some (headerVal h1W "X-Chat-Last-Common-Read") ∧
    lookupKV (Chat.receive_messages
        (Chat.receive_messages chatT env1W false 100 30 0 0 true false).2.1
        env2W false 100 30 0 0 true false).2.1.headers
      "X-Chat-Last-Given" = some (headerVal h2W "X-Chat-Last-Given") ∧
    lookupKV (Chat.receive_messages
        (Chat.receive_messages chatT env1W false 100 30 0 0 true false).2.1
        env2W false 100 30 0 0 true false).2.1.headers
      "X-Chat-Last-Common-Read" = some (headerVal h2W "X-Chat-Last-Common-Read") :=
  C7_header_cache_overwrite chatT env1W env2W p1W p1W h1W h2W
    (List.cons_ne_nil _ _) rfl (List.cons_ne_nil _ _) rfl
    (fun _ => rfl) (fun _ => rfl)
